import Mathlib

/-
  Verification of the wegweiser repository: a Sphinx extension
  (wegweiser/extension.py) that shells out to a helper script
  (wegweiser/extract.py) which boots a Pyramid application, walks its
  route registry and serializes route/view information as JSON.

  The Python code is shallowly embedded:
  - Python view callables are modelled by the inductive type `View`;
    `View.missing` is Python's `None` (e.g. the result of a failed
    view lookup).  A function object carries the attributes the code
    reads: the `__wraps__` / `__wrapped__` chain, `__code__.co_name`,
    `__code__.co_freevars` together with `__closure__`, the optional
    `__predicates__` list, the module reported by `inspect.getmodule`,
    the source file and source lines used by `inspect.getsourcefile` /
    `inspect.getsourcelines`, and the docstring as computed by
    `inspect.getdoc`.
  - Pyramid's registry and traversal machinery (`find_view` in
    extract.py is a chain of framework adapter lookups over
    IRootFactory / IRouteRequest / ITraverser / IView) is external to
    this repository, so an environment carries an abstract lookup
    function `findView : Route → View`.
  - Python exceptions are modelled with `Except String`, strings being
    the rendered exception messages.
  - Python's stable `sorted` is modelled with Mathlib's stable
    `List.insertionSort` (stable sorting is extensionally unique).
-/

/-- A JSON value, as produced by Python's json module: the helper
script communicates with the Sphinx extension through one JSON
document on the subprocess's standard output. -/
inductive JsonVal where
  | null : JsonVal
  | bool (b : Bool) : JsonVal
  | num (n : Int) : JsonVal
  | str (s : String) : JsonVal
  | arr (elems : List JsonVal) : JsonVal
  | obj (fields : List (String × JsonVal)) : JsonVal

/-- Python's `str.startswith`: code-point level list-prefix test. -/
def pyStartswith (s pre : String) : Bool :=
  pre.data.isPrefixOf s.data

/-- Python's `str.endswith` for a single-string argument. -/
def pyEndswith (s suf : String) : Bool :=
  suf.data.reverse.isPrefixOf s.data.reverse

/-- Python's `len` on a string (number of code points). -/
def pyLen (s : String) : Nat := s.data.length

/-- Python slicing `s[n:]` (code-point based). -/
def pySliceFrom (s : String) (n : Nat) : String :=
  String.mk (s.data.drop n)

/-- Python's `str.lstrip()` with no argument: drop leading whitespace
(code-point level; Python strips Unicode whitespace, of which the
ASCII whitespace recognized by `Char.isWhitespace` is the part that
occurs in source lines). -/
def pyLstrip (s : String) : String :=
  String.mk (s.data.dropWhile Char.isWhitespace)

/-- Truthiness of an optional Python string (`None` and the empty
string are falsy). -/
def pyTruthy : Option String → Bool
  | none => false
  | some s => !s.isEmpty

/-- The single-quote character, used when rendering Python `repr` of
a string. -/
def squoteChar : Char := Char.ofNat 39

/-- Approximation of Python's `repr` for the short identifier-like
strings that reach `"Invalid group: {0!r}".format(group_by)`:
the string wrapped in single quotes (escaping is not needed for
those). -/
def pyReprStr (s : String) : String :=
  String.mk [squoteChar] ++ s ++ String.mk [squoteChar]

/-- A Pyramid renderer helper; the code only ever reads its `name`
attribute (extract.py line 173). -/
structure Renderer where
  name : String

/-- A view predicate as stored on a view callable's `__predicates__`
attribute.  `val` is `some v` when the predicate object has a `val`
attribute (its JSON-serializable value), `none` when it does not
(`hasattr(predicate, "val")` is false). -/
structure Predicate where
  className : String
  val : Option JsonVal

/-- The attributes of a Python function object that extract.py reads.
`closure` models `__closure__` (`none` = the attribute is `None`);
only cells that can be returned as a view renderer are ever read
(get_view_renderer reads exactly the cell named `view_renderer`), so
cell contents are modelled as `Renderer` payloads.  `module` is the
name of the module reported by `inspect.getmodule` (`none` when
`inspect.getmodule` returns `None`).  `sourceFile` is `none` when
`inspect.getsourcefile` raises `TypeError` (builtins and other
objects whose source cannot be determined).  `predicates` is `none`
when the object has no `__predicates__` attribute. -/
structure FuncAttrs where
  hasCode : Bool
  coName : String
  freevars : List String
  closure : Option (List Renderer)
  predicates : Option (List Predicate)
  module : Option String
  sourceFile : Option String
  sourceLines : List String
  startOffset : Nat
  doc : Option String

/-- A Python view callable as seen by extract.py: either `None`
(`missing`, e.g. when no view is registered for a route) or a
function object with attributes, an optional `__wraps__` target and
an optional `__wrapped__` target. -/
inductive View where
  | missing : View
  | func (attrs : FuncAttrs) (wraps : Option View) (wrapped : Option View) : View

namespace View

/-- getattr(view, "__closure__", None): `None` has no closure. -/
def closureOf : View → Option (List Renderer)
  | missing => none
  | func a _ _ => a.closure

/-- view.__code__.co_freevars, read only when a closure exists. -/
def freevarsOf : View → List String
  | missing => []
  | func a _ _ => a.freevars

/-- getattr(view, "__predicates__", []) yields the attribute when
present and the default `[]` otherwise (also for `None`). -/
def predicatesOf : View → List Predicate
  | missing => []
  | func a _ _ => a.predicates.getD []

/-- hasattr(view, "__predicates__"). -/
def hasPredicatesAttr : View → Bool
  | missing => false
  | func a _ _ => a.predicates.isSome

/-- Name of the module reported by `inspect.getmodule`, when any. -/
def moduleOf : View → Option String
  | missing => none
  | func a _ _ => a.module

/-- Result of `inspect.getsourcefile`: `none` models the `TypeError`
raised for objects (such as `None` or builtins) whose source file
cannot be determined. -/
def sourceFileOf : View → Option String
  | missing => none
  | func a _ _ => a.sourceFile

/-- The source lines returned by `inspect.getsourcelines`. -/
def sourceLinesOf : View → List String
  | missing => []
  | func a _ _ => a.sourceLines

/-- The start offset returned by `inspect.getsourcelines`. -/
def startOffsetOf : View → Nat
  | missing => 0
  | func a _ _ => a.startOffset

/-- The docstring as computed by `inspect.getdoc` (`none` when there
is none). -/
def getdocOf : View → Option String
  | missing => none
  | func a _ _ => a.doc

end View

/-
  Embedding of wegweiser/extract.py.
-/

/-- The `while` loop of `get_view_renderer` (extract.py lines 89-92):
follow `__wraps__` until the attribute is absent or the current
function's code object is named `rendered_view`. -/
def unwrapToRenderedView : View → View
  | View.missing => View.missing
  | View.func attrs (some w) wrapped =>
      if attrs.hasCode && attrs.coName == "rendered_view" then
        View.func attrs (some w) wrapped
      else
        unwrapToRenderedView w
  | View.func attrs none wrapped => View.func attrs none wrapped

/-- The `for` loop of `get_view_renderer` (extract.py lines 94-96):
first cell of `zip(co_freevars, __closure__)` whose name is
`view_renderer`. -/
def findRendererCell : List (String × Renderer) → Option Renderer
  | [] => none
  | (n, r) :: rest =>
      if n == "view_renderer" then some r else findRendererCell rest

/-- get_view_renderer (extract.py lines 84-96): unwrap to the
`rendered_view` wrapper and read the `view_renderer` closure cell;
the implicit Python `return None` is `none`. -/
def get_view_renderer (view : View) : Option Renderer :=
  let v := unwrapToRenderedView view
  match v.closureOf with
  | none => none
  | some cells => findRendererCell (List.zip v.freevarsOf cells)

/-- The accumulating loop of `get_view_predicates` (extract.py lines
78-82). -/
def predicatesLoop : List Predicate → List (String × JsonVal) →
    List (String × JsonVal)
  | [], acc => acc
  | p :: rest, acc =>
      match p.val with
      | some v => predicatesLoop rest (acc ++ [(p.className, v)])
      | none => predicatesLoop rest acc

/-- get_view_predicates (extract.py lines 73-82): the (class name,
val) pairs of the predicates that have a `val` attribute, in order. -/
def get_view_predicates (view : View) : List (String × JsonVal) :=
  predicatesLoop view.predicatesOf []

/-- _get_unwrapped (extract.py lines 98-106): repeatedly follow
`__wraps__`, then `__wrapped__`. -/
def _get_unwrapped : View → View
  | View.missing => View.missing
  | View.func _ (some w) _ => _get_unwrapped w
  | View.func _ none (some w) => _get_unwrapped w
  | View.func attrs none none => View.func attrs none none

/-- Test of extract.py line 122: the line, left-stripped, starts with
a double or single quote. -/
def lineStartsStringLiteral (line : String) : Bool :=
  let t := pyLstrip line
  pyStartswith t "\"" || pyStartswith t (String.mk [squoteChar])

/-- The docstring-line search of `get_docstring` (extract.py lines
121-125): first line number (counting from `start`) whose stripped
line starts a string literal; `none` models the `for`/`else` branch
returning `None`. -/
def findDocstringLine : List String → Nat → Option Nat
  | [], _ => none
  | line :: rest, lineno =>
      if lineStartsStringLiteral line then some lineno
      else findDocstringLine rest (lineno + 1)

/-- get_docstring (extract.py lines 108-129): unwrap the function,
return `none` when the source file cannot be determined (`TypeError`
caught), when no source line starts a string literal, or when
`inspect.getdoc` returns `None`; otherwise the triple (filename,
line number of the docstring start, docstring). -/
def get_docstring (func : View) : Option (String × Nat × String) :=
  let f := _get_unwrapped func
  match f.sourceFileOf with
  | none => none
  | some filename =>
      let start := max f.startOffsetOf 1
      match findDocstringLine f.sourceLinesOf start with
      | none => none
      | some lineno =>
          match f.getdocOf with
          | none => none
          | some docstring => some (filename, lineno, docstring)

/-- A Pyramid route as stored in the routes mapper: the code reads
its `name` and `pattern` attributes. -/
structure Route where
  name : String
  pattern : String

/-- The bootstrapped Pyramid environment as used by `collect`:
the routes mapper's `(name, route)` items and the registry, the
latter abstracted to the view lookup `find_view` performs for a route
(extract.py lines 39-71, a chain of framework-owned registry adapter
lookups; `View.missing` is a failed lookup, i.e. `find_view`
returning `None`). -/
structure Env where
  routes : List (String × Route)
  findView : Route → View

/-- A route entry as built by the loop body of `collect` (extract.py
lines 157-174). -/
structure RouteEntry where
  name : String
  pattern : String
  predicates : List (String × JsonVal)
  module : String
  doc : Option (String × Nat × String)
  renderer : Option String

/-- The exception message for reading `__name__` on the `None` that
`inspect.getmodule` returns when the view has no module (in
particular when the view itself is `None`): extract.py line 168. -/
def attributeErrorMsg : String :=
  "AttributeError: NoneType object has no attribute __name__"

/-- The loop body of `collect` (extract.py lines 157-174) for one
route: look up the view, extract renderer and predicates, normalize
the pattern, and build the entry; `inspect.getmodule(view).__name__`
raises AttributeError when `inspect.getmodule` returns `None` (which
it does for a missing view). -/
def processRoute (findView : Route → View) (route : Route) :
    Except String RouteEntry :=
  let view := findView route
  let renderer := get_view_renderer view
  let predicates := get_view_predicates view
  let pattern :=
    if pyStartswith route.pattern "/" then route.pattern
    else "/" ++ route.pattern
  match view.moduleOf with
  | none => Except.error attributeErrorMsg
  | some m =>
      Except.ok
        { name := route.name
          pattern := pattern
          predicates := predicates
          module := m
          doc := get_docstring view
          renderer :=
            match renderer with
            | none => none
            | some r => some r.name }

/-- The route loop of `collect`: process the mapper's items in order,
propagating the first exception. -/
def collectRoutes (findView : Route → View) :
    List (String × Route) → Except String (List RouteEntry)
  | [] => Except.ok []
  | (_, route) :: rest =>
      match processRoute findView route with
      | Except.error e => Except.error e
      | Except.ok entry =>
          match collectRoutes findView rest with
          | Except.error e => Except.error e
          | Except.ok entries => Except.ok (entry :: entries)

/-- Python's `<` on strings at the code-point list level:
lexicographic comparison, a strict prefix being smaller. -/
def pyCharsLt : List Char → List Char → Bool
  | [], [] => false
  | [], _ :: _ => true
  | _ :: _, [] => false
  | a :: as, b :: bs =>
      if a < b then true else if b < a then false else pyCharsLt as bs

/-- Python's `<` on strings (code-point lexicographic order). -/
def pyStrLt (a b : String) : Bool := pyCharsLt a.data b.data

/-- Python's `<=` on strings, the order `sorted` produces. -/
def pyStrLe (a b : String) : Bool := !(pyStrLt b a)

/-- The comparison used by `sorted(routes, key=itemgetter("pattern"))`
(extract.py line 175): Python compares the pattern strings. -/
def patternLe (a b : RouteEntry) : Prop :=
  pyStrLe a.pattern b.pattern = true

instance : DecidableRel patternLe := fun a b =>
  inferInstanceAs (Decidable (pyStrLe a.pattern b.pattern = true))

/-- collect (extract.py lines 131-175): build one entry per route of
the mapper and return them sorted (stably) by pattern.  The locals
computed in lines 146-155 (root factory, request, traverser) are not
used by the loop; the registry machinery is carried by `Env`. -/
def collect (env : Env) : Except String (List RouteEntry) :=
  match collectRoutes env.findView env.routes with
  | Except.error e => Except.error e
  | Except.ok routes => Except.ok (routes.insertionSort patternLe)

/-- The docstring triple of a module or view group. -/
abbrev DocTriple := String × Nat × String

/-- One step of the `group_by_modules` loop (extract.py lines
179-184): create the group on first occurrence of the module name
(reading the module object from `sys.modules` and taking its
docstring) and append the route to its group.  Python dicts preserve
insertion order, so groups are an association list in first-occurrence
order. -/
def groupInsert (modules : String → View)
    (acc : List (String × (Option DocTriple × List RouteEntry)))
    (r : RouteEntry) : List (String × (Option DocTriple × List RouteEntry)) :=
  if acc.any (fun g => g.1 == r.module) then
    acc.map (fun g =>
      if g.1 == r.module then (g.1, (g.2.1, g.2.2 ++ [r])) else g)
  else
    acc ++ [(r.module, (get_docstring (modules r.module), [r]))]

/-- group_by_modules (extract.py lines 177-185).  `modules` models
`sys.modules` (module objects are `View`s: `get_docstring` reads the
same attributes from them). -/
def group_by_modules (modules : String → View) (routes : List RouteEntry) :
    List (String × (Option DocTriple × List RouteEntry)) :=
  routes.foldl (groupInsert modules) []

/-- The parsed command-line options of the helper script's argument
parser (extract.py lines 196-200). -/
structure MainOptions where
  config : String
  pref : Option String
  group : Option String

/-- GROUP_FUNCS (extract.py lines 188-190) has the single key
`module`; membership is what argparse's `choices` and the
`GROUP_FUNCS[options.group]` lookup test. -/
def GROUP_FUNCS_contains (name : String) : Bool :=
  name == "module"

/-- The argument-parser loop modelling extract.py lines 196-200 for
the argument forms the extension passes: `--prefix=<value>` and
`--group=<value>` flags (argparse validates the group value against
GROUP_FUNCS' keys and errors out on an invalid choice) and exactly
one positional `config` argument. -/
def parseArgsLoop : List String → Option String → Option String →
    Option String → Except String MainOptions
  | [], some c, p, g => Except.ok ⟨c, p, g⟩
  | [], none, _, _ =>
      Except.error "error: the following arguments are required: config"
  | a :: rest, c, p, g =>
      if pyStartswith a "--prefix=" then
        parseArgsLoop rest c (some (pySliceFrom a 9)) g
      else if pyStartswith a "--group=" then
        let v := pySliceFrom a 8
        if GROUP_FUNCS_contains v then parseArgsLoop rest c p (some v)
        else Except.error "error: argument --group: invalid choice"
      else
        match c with
        | none => parseArgsLoop rest (some a) p g
        | some _ => Except.error "error: unrecognized arguments"

/-- parse_args of the helper script's parser on the given argument
vector (everything after the script path). -/
def parseMainArgs (argv : List String) : Except String MainOptions :=
  parseArgsLoop argv none none none

/-- The data `main` holds right before `json.dump` (extract.py line
213): either the plain route list or the grouping produced by
`group_by_modules`. -/
inductive Fetched where
  | ungrouped (routes : List RouteEntry) : Fetched
  | grouped (modules : List (String × (Option DocTriple × List RouteEntry))) :
      Fetched

/-- main's pipeline after `paster.bootstrap` (extract.py lines
202-213): collect the routes, filter by a truthy prefix option, and
group when a group function was selected (`if options.group:` with
the same truthiness test; an invalid value was already rejected by
argparse, modelled in `parseMainArgs`).  `opts.config` only feeds
`paster.bootstrap`, whose result is the abstract `env`. -/
def mainPipeline (env : Env) (modules : String → View)
    (opts : MainOptions) : Except String Fetched :=
  match collect env with
  | Except.error e => Except.error e
  | Except.ok routes =>
      let routes :=
        if pyTruthy opts.pref then
          routes.filter (fun r => pyStartswith r.pattern (opts.pref.getD ""))
        else routes
      if pyTruthy opts.group then
        Except.ok (Fetched.grouped (group_by_modules modules routes))
      else
        Except.ok (Fetched.ungrouped routes)

/-- JSON serialization of a route entry, as json.dump renders the
dictionary built in extract.py lines 164-173 (tuples become arrays;
the dict's insertion order is name, pattern, predicates, module,
doc, renderer). -/
def routeJson (e : RouteEntry) : JsonVal :=
  JsonVal.obj
    [("name", JsonVal.str e.name),
     ("pattern", JsonVal.str e.pattern),
     ("predicates",
      JsonVal.arr (e.predicates.map
        (fun p => JsonVal.arr [JsonVal.str p.1, p.2]))),
     ("module", JsonVal.str e.module),
     ("doc",
      match e.doc with
      | none => JsonVal.null
      | some (f, l, d) =>
          JsonVal.arr [JsonVal.str f, JsonVal.num (Int.ofNat l),
                       JsonVal.str d]),
     ("renderer",
      match e.renderer with
      | none => JsonVal.null
      | some r => JsonVal.str r)]

/-- The keys of a JSON object, in order (`none` for non-objects). -/
def jsonObjKeys : JsonVal → Option (List String)
  | JsonVal.obj fs => some (fs.map Prod.fst)
  | _ => none

/-- JSON serialization of a module group's docstring field. -/
def docTripleJson : Option DocTriple → JsonVal
  | none => JsonVal.null
  | some (f, l, d) =>
      JsonVal.arr [JsonVal.str f, JsonVal.num (Int.ofNat l), JsonVal.str d]

/-- JSON serialization of the value main passes to json.dump. -/
def fetchedToJson : Fetched → JsonVal
  | Fetched.ungrouped rs => JsonVal.arr (rs.map routeJson)
  | Fetched.grouped ms =>
      JsonVal.obj (ms.map (fun g =>
        (g.1, JsonVal.obj
          [("doc", docTripleJson g.2.1),
           ("routes", JsonVal.arr (g.2.2.map routeJson))])))

/-- The complete helper-script run (extract.py lines 192-214) on an
argument vector: parse the arguments, bootstrap (abstracted to
`env` / `modules`), run the pipeline and serialize.  On success the
standard output carries exactly the one document written by the
single `json.dump` call; on an exception nothing was written. -/
def extractScriptDocs (env : Env) (modules : String → View)
    (argv : List String) : Except String (List JsonVal) :=
  match parseMainArgs argv with
  | Except.error e => Except.error e
  | Except.ok opts =>
      match mainPipeline env modules opts with
      | Except.error e => Except.error e
      | Except.ok f => Except.ok [fetchedToJson f]

/-
  Embedding of wegweiser/extension.py.
-/

/-- The argument list `get_routes` builds for the subprocess
(extension.py lines 26-33): interpreter, helper script path, the
user-expanded configuration path, then a `--group=` flag when
`group_by` is truthy and a `--prefix=` flag when `prefix` is truthy.
`python` (sys.executable), `script` (the extract.py path) and
`expanduser` (os.path.expanduser, environment-dependent) are
parameters of the model. -/
def get_routes_args (python script : String) (expanduser : String → String)
    (config : String) (prefArg group_by : Option String) : List String :=
  let args := [python, script, expanduser config]
  let args := if pyTruthy group_by then
      args ++ ["--group=" ++ group_by.getD ""] else args
  if pyTruthy prefArg then args ++ ["--prefix=" ++ prefArg.getD ""] else args

/-- The error raised by `json.loads` in `get_routes` (extension.py
line 36) when the subprocess failed and its standard output is
empty. -/
def jsonLoadsErrorMsg : String :=
  "ValueError: No JSON object could be decoded"

/-- get_routes (extension.py lines 23-36), with the JSON boundary
kept structural: run the helper subprocess on the built argument list
(the subprocess receives the arguments after interpreter and script
path) and decode its standard output.  A subprocess exception never
crosses the process boundary: it leaves the standard output empty,
so `json.loads` raises a decoding error.  Decoding the single dumped
document yields back its value (json.loads inverts json.dump), so
the decoded result is returned as the structural `Fetched` value. -/
def get_routes_fetched (python script : String)
    (expanduser : String → String) (env : Env) (modules : String → View)
    (config : String) (prefArg group_by : Option String) :
    Except String Fetched :=
  let argv :=
    (get_routes_args python script expanduser config prefArg group_by).drop 2
  match parseMainArgs argv with
  | Except.error _ => Except.error jsonLoadsErrorMsg
  | Except.ok opts =>
      match mainPipeline env modules opts with
      | Except.error _ => Except.error jsonLoadsErrorMsg
      | Except.ok f => Except.ok f

/-- The JSON document `get_routes` returns (the decoded standard
output of the helper). -/
def get_routes_json (python script : String)
    (expanduser : String → String) (env : Env) (modules : String → View)
    (config : String) (prefArg group_by : Option String) :
    Except String JsonVal :=
  (get_routes_fetched python script expanduser env modules config
    prefArg group_by).map fetchedToJson

/-- A docutils node as built by the directives.  `docstringContent`
stands for the result of `_render_docstring` (extension.py lines
90-107): the prepared docstring lines nested-parsed into the parent
node with their source filename and start offset; the RST parsing
itself is performed by docutils/Sphinx and is external to this
repository. -/
inductive Node where
  | sect (id : String) (children : List Node) : Node
  | title (text : String) : Node
  | paragraph (children : List Node) : Node
  | strong (text : String) : Node
  | inlineText (text : String) : Node
  | literalText (text : String) : Node
  | plainText (text : String) : Node
  | docstringContent (filename : String) (startOffset : Nat)
      (docstring : String) : Node

/-- The options of a `pyramidroutes` directive invocation: the
optional `:prefix:` and `:groupby:` option values. -/
structure DirectiveOptions where
  pref : Option String
  groupby : Option String

/-- _strip_prefix (extension.py lines 109-116): when a truthy prefix
option is set and the pattern starts with it, slice off
`len(prefix) - prefix.endswith("/")` leading characters. -/
def _strip_pref (opts : DirectiveOptions) (pattern : String) : String :=
  let p := opts.pref.getD ""
  if pyTruthy opts.pref && pyStartswith pattern p then
    pySliceFrom pattern (pyLen p - (if pyEndswith p "/" then 1 else 0))
  else pattern

/-- _get_request_methods (extension.py lines 64-68): the value of the
first predicate pair named RequestMethodPredicate, else the empty
list. -/
def _get_request_methods : List (String × JsonVal) → JsonVal
  | [] => JsonVal.arr []
  | (n, v) :: rest =>
      if n == "RequestMethodPredicate" then v
      else _get_request_methods rest

/-- Truthiness of the request-methods value (`if request_methods:`,
extension.py line 72). -/
def jsonTruthy : JsonVal → Bool
  | JsonVal.null => false
  | JsonVal.bool b => b
  | JsonVal.num n => n != 0
  | JsonVal.str s => !s.isEmpty
  | JsonVal.arr xs => !xs.isEmpty
  | JsonVal.obj fs => !fs.isEmpty

/-- Iteration over the decoded request-methods value; for the tuples
RequestMethodPredicate stores this is a JSON array (a non-sequence
value would make Python's iteration raise, which no claim
exercises). -/
def jsonElems : JsonVal → List JsonVal
  | JsonVal.arr xs => xs
  | JsonVal.str s => s.data.map (fun c => JsonVal.str (String.mk [c]))
  | _ => []

/-- Python str() of a decoded JSON scalar, as nodes.literal(text=...)
renders it. -/
def jsonText : JsonVal → String
  | JsonVal.str s => s
  | JsonVal.num n => toString n
  | JsonVal.bool b => if b then "True" else "False"
  | JsonVal.null => "None"
  | JsonVal.arr _ => ""
  | JsonVal.obj _ => ""

/-- The enumerate loop of `_render_request_methods` (extension.py
lines 75-78): a comma separator before every element after the
first. -/
def renderMethodItems (first : Bool) : List JsonVal → List Node
  | [] => []
  | m :: rest =>
      (if first then [Node.literalText (jsonText m)]
       else [Node.inlineText ", ", Node.literalText (jsonText m)])
      ++ renderMethodItems false rest

/-- _render_request_methods (extension.py lines 70-81): a paragraph
listing the request methods, or no node when there are none. -/
def _render_request_methods (route : RouteEntry) : List Node :=
  let methods := _get_request_methods route.predicates
  if jsonTruthy methods then
    [Node.paragraph
      ([Node.strong "Request methods: "]
        ++ renderMethodItems true (jsonElems methods)
        ++ [Node.plainText "\n"])]
  else []

/-- _render_response (extension.py lines 83-88): a paragraph naming
the renderer when the route has a truthy one; the implicit `return
None` contributes no child (`node += None` is a no-op). -/
def _render_response (route : RouteEntry) : List Node :=
  match route.renderer with
  | some r =>
      if !r.isEmpty then
        [Node.paragraph [Node.strong "Response: ", Node.inlineText r]]
      else []
  | none => []

/-- _render_route (extension.py lines 51-62) for one route entry.
`serial` models `env.new_serialno("route")` (a fresh counter value
per call).  The update of `env.pyramid_routes` (bookkeeping for
rebuild tracking) has no bearing on the produced nodes and is not
modelled. -/
def _render_route (opts : DirectiveOptions) (serial : Nat)
    (route : RouteEntry) : Node :=
  Node.sect ("route-" ++ toString serial)
    ([Node.title (_strip_pref opts route.pattern)]
      ++ _render_request_methods route
      ++ _render_response route
      ++ (match route.doc with
          | some (f, off, d) => [Node.docstringContent f off d]
          | none => []))

/-- The group-renderer registry of PyramidRoutesDirective
(extension.py lines 131-158, 172-176): the decorators register the
default renderer under the empty name and the module renderer under
`module`. -/
inductive GroupRenderer where
  | defaultRenderer : GroupRenderer
  | moduleRenderer : GroupRenderer

/-- Lookup in the group-renderer registry; `none` models the KeyError
of `self.group_renderer[group_by]` (extension.py line 166). -/
def group_renderer_lookup (name : String) : Option GroupRenderer :=
  if name == "" then some GroupRenderer.defaultRenderer
  else if name == "module" then some GroupRenderer.moduleRenderer
  else none

/-- _default_group_renderer (extension.py lines 172-174): render each
route; serial numbers are consecutive counter values. -/
def _default_group_renderer (opts : DirectiveOptions)
    (routes : List RouteEntry) : List Node :=
  (List.range routes.length).zip routes |>.map
    (fun p => _render_route opts p.1 p.2)

/-- The route loop of `_module_group_renderer` for one module's
routes, with consecutive serial numbers starting at `serial`. -/
def renderModuleRoutes (opts : DirectiveOptions) (serial : Nat) :
    List RouteEntry → List Node
  | [] => []
  | r :: rest =>
      _render_route opts serial r :: renderModuleRoutes opts (serial + 1) rest

/-- _module_group_renderer (extension.py lines 176-190): one section
per module (in the grouping's order) titled with the module name,
containing the module docstring's content when truthy and the
module's rendered routes. -/
def _module_group_renderer (opts : DirectiveOptions) (serial : Nat) :
    List (String × (Option DocTriple × List RouteEntry)) → List Node
  | [] => []
  | (name, (doc, routes)) :: rest =>
      Node.sect ("module-" ++ name)
        ([Node.title name]
          ++ (match doc with
              | some (f, off, d) => [Node.docstringContent f off d]
              | none => [])
          ++ renderModuleRoutes opts serial routes)
      :: _module_group_renderer opts (serial + routes.length) rest

/-- The TypeError iterating data of the wrong shape would raise in a
group renderer; unreachable through `run` because the fetched shape
always matches the selected renderer. -/
def rendererShapeErrorMsg : String := "TypeError: route data of wrong shape"

/-- Application of a registry renderer to the fetched data
(`renderer(self, routes)`, extension.py line 170). -/
def applyGroupRenderer (opts : DirectiveOptions) :
    GroupRenderer → Fetched → Except String (List Node)
  | GroupRenderer.defaultRenderer, Fetched.ungrouped rs =>
      Except.ok (_default_group_renderer opts rs)
  | GroupRenderer.moduleRenderer, Fetched.grouped ms =>
      Except.ok (_module_group_renderer opts 0 ms)
  | GroupRenderer.defaultRenderer, Fetched.grouped _ =>
      Except.error rendererShapeErrorMsg
  | GroupRenderer.moduleRenderer, Fetched.ungrouped _ =>
      Except.error rendererShapeErrorMsg

/-- The message of the directive error raised for an unregistered
group name (extension.py line 168). -/
def invalidGroupMsg (group_by : String) : String :=
  "Invalid group: " ++ pyReprStr group_by

/-- PyramidRoutesDirective.run (extension.py lines 160-170): read the
options (a missing groupby option defaults to the empty string),
fetch the routes through the helper subprocess — passing the groupby
value along — and only then look the group renderer up, raising the
`Invalid group` directive error on a failed lookup. -/
def PyramidRoutesDirective_run (opts : DirectiveOptions)
    (python script : String) (expanduser : String → String) (env : Env)
    (modules : String → View) (config : String) :
    Except String (List Node) :=
  let group_by := opts.groupby.getD ""
  match get_routes_fetched python script expanduser env modules
      config opts.pref (some group_by) with
  | Except.error e => Except.error e
  | Except.ok fetched =>
      match group_renderer_lookup group_by with
      | none => Except.error (invalidGroupMsg group_by)
      | some renderer => applyGroupRenderer opts renderer fetched

mutual

/-- Whether a node (recursively) contains docstring content. -/
def hasDocstringNode : Node → Bool
  | Node.docstringContent _ _ _ => true
  | Node.sect _ cs => hasDocstringAny cs
  | Node.paragraph cs => hasDocstringAny cs
  | _ => false

/-- Whether any node of a list contains docstring content. -/
def hasDocstringAny : List Node → Bool
  | [] => false
  | n :: rest => hasDocstringNode n || hasDocstringAny rest

end

/-
  A concrete environment, mirroring docs/example_app: plain view
  functions from example/views.py, one of them wrapped by Pyramid's
  rendered_view wrapper carrying a renderer and a request-method
  predicate, plus an undocumented view.
-/

/-- The view_page function of docs/example_app/example/views.py. -/
def viewPageFunc : View :=
  View.func
    { hasCode := true
      coName := "view_page"
      freevars := []
      closure := none
      predicates := none
      module := some "example.views"
      sourceFile := some "docs/example_app/example/views.py"
      sourceLines :=
        ["@view_config(route_name=view_page_name)\n",
         "def view_page(request):\n",
         "    \"View a single wiki page.\"\n"]
      startOffset := 8
      doc := some "View a single wiki page." }
    none none

/-- Pyramid's rendered_view wrapper around view_page: code object
named rendered_view, the renderer in the view_renderer closure cell,
and a request-method predicate. -/
def viewPageWrapped : View :=
  View.func
    { hasCode := true
      coName := "rendered_view"
      freevars := ["view", "view_renderer"]
      closure := some [⟨"inner"⟩, ⟨"templates/view.pt"⟩]
      predicates :=
        some [⟨"RequestMethodPredicate",
               some (JsonVal.arr [JsonVal.str "GET", JsonVal.str "POST"])⟩]
      module := some "pyramid.config.views"
      sourceFile := some "pyramid/config/views.py"
      sourceLines := ["def rendered_view(context, request):\n"]
      startOffset := 0
      doc := none }
    (some viewPageFunc) none

/-- The view_wiki function of docs/example_app/example/views.py. -/
def viewWikiFunc : View :=
  View.func
    { hasCode := true
      coName := "view_wiki"
      freevars := []
      closure := none
      predicates := none
      module := some "example.views"
      sourceFile := some "docs/example_app/example/views.py"
      sourceLines :=
        ["@view_config(route_name=view_wiki_name)\n",
         "def view_wiki(request):\n",
         "    \"Redirect to the FrontPage wiki page.\"\n"]
      startOffset := 4
      doc := some "Redirect to the FrontPage wiki page." }
    none none

/-- An undocumented view: no source line starts a string literal and
inspect.getdoc returns None. -/
def pingFunc : View :=
  View.func
    { hasCode := true
      coName := "ping"
      freevars := []
      closure := none
      predicates := none
      module := some "example.views"
      sourceFile := some "docs/example_app/example/views.py"
      sourceLines := ["def ping(request):\n", "    pass\n"]
      startOffset := 22
      doc := none }
    none none

/-- The example.views module object, as found in sys.modules. -/
def exampleViewsModule : View :=
  View.func
    { hasCode := false
      coName := ""
      freevars := []
      closure := none
      predicates := none
      module := some "example.views"
      sourceFile := some "docs/example_app/example/views.py"
      sourceLines := ["from pyramid.view import view_config\n"]
      startOffset := 1
      doc := none }
    none none

/-- The example application's routes and view registrations. -/
def exampleEnv : Env :=
  { routes :=
      [("view_page", ⟨"view_page", "page/{pagename}"⟩),
       ("view_wiki", ⟨"view_wiki", "/"⟩),
       ("ping", ⟨"ping", "/ping"⟩)]
    findView := fun rt =>
      if rt.name == "view_page" then viewPageWrapped
      else if rt.name == "view_wiki" then viewWikiFunc
      else if rt.name == "ping" then pingFunc
      else View.missing }

/-- The sys.modules mapping of the example application. -/
def exampleModules : String → View := fun name =>
  if name == "example.views" then exampleViewsModule else View.missing

/-- An environment whose single route has no registered view:
find_view returns None for it. -/
def missingViewEnv : Env :=
  { routes := [("broken", ⟨"broken", "/broken"⟩)]
    findView := fun _ => View.missing }

/-- The entry collect builds for the view_wiki route. -/
def exampleWikiEntry : RouteEntry :=
  { name := "view_wiki"
    pattern := "/"
    predicates := []
    module := "example.views"
    doc := some ("docs/example_app/example/views.py", 6,
                 "Redirect to the FrontPage wiki page.")
    renderer := none }

/-- The entry collect builds for the view_page route. -/
def examplePageEntry : RouteEntry :=
  { name := "view_page"
    pattern := "/page/{pagename}"
    predicates :=
      [("RequestMethodPredicate",
        JsonVal.arr [JsonVal.str "GET", JsonVal.str "POST"])]
    module := "pyramid.config.views"
    doc := some ("docs/example_app/example/views.py", 10,
                 "View a single wiki page.")
    renderer := some "templates/view.pt" }

/-- The entry collect builds for the ping route. -/
def examplePingEntry : RouteEntry :=
  { name := "ping"
    pattern := "/ping"
    predicates := []
    module := "example.views"
    doc := none
    renderer := none }

/-- The pattern-sorted entries collect returns for the example
environment. -/
def exampleEntries : List RouteEntry :=
  [exampleWikiEntry, examplePageEntry, examplePingEntry]

/-
  Helper lemmas.
-/

/-- The strict string comparison is irreflexive. -/
theorem pyCharsLt_irrefl : ∀ as, pyCharsLt as as = false := by
  intro as
  induction as with
  | nil => rfl
  | cons a as ih => simp [pyCharsLt, lt_irrefl, ih]

/-- The strict string comparison is transitive. -/
theorem pyCharsLt_trans : ∀ as bs cs, pyCharsLt as bs = true →
    pyCharsLt bs cs = true → pyCharsLt as cs = true := by
  intro as
  induction as with
  | nil =>
      intro bs cs h1 h2
      cases bs with
      | nil => cases h1
      | cons b bs =>
          cases cs with
          | nil => cases h2
          | cons c cs => rfl
  | cons a as ih =>
      intro bs cs h1 h2
      cases bs with
      | nil => cases h1
      | cons b bs =>
          cases cs with
          | nil => cases h2
          | cons c cs =>
              simp only [pyCharsLt] at h1 h2 ⊢
              rcases lt_trichotomy a b with hab | hab | hab
              · rcases lt_trichotomy b c with hbc | hbc | hbc
                · simp [lt_trans hab hbc]
                · subst hbc; simp [hab]
                · rw [if_neg (asymm hbc), if_pos hbc] at h2; cases h2
              · subst hab
                rw [if_neg (lt_irrefl a), if_neg (lt_irrefl a)] at h1
                rcases lt_trichotomy a c with hac | hac | hac
                · simp [hac]
                · subst hac
                  rw [if_neg (lt_irrefl a), if_neg (lt_irrefl a)] at h2 ⊢
                  exact ih bs cs h1 h2
                · rw [if_neg (asymm hac), if_pos hac] at h2; cases h2
              · rw [if_neg (asymm hab), if_pos hab] at h1; cases h1

/-- When the strict string comparison rejects, the arguments are
equal or ordered the other way. -/
theorem pyCharsLt_connected : ∀ as bs, pyCharsLt as bs = false →
    pyCharsLt bs as = true ∨ as = bs := by
  intro as
  induction as with
  | nil =>
      intro bs h
      cases bs with
      | nil => exact Or.inr rfl
      | cons b bs => cases h
  | cons a as ih =>
      intro bs h
      cases bs with
      | nil => exact Or.inl rfl
      | cons b bs =>
          simp only [pyCharsLt] at h ⊢
          rcases lt_trichotomy a b with hab | hab | hab
          · rw [if_pos hab] at h; cases h
          · subst hab
            rw [if_neg (lt_irrefl a), if_neg (lt_irrefl a)] at h ⊢
            rcases ih bs h with h2 | h2
            · exact Or.inl h2
            · exact Or.inr (by rw [h2])
          · exact Or.inl (by rw [if_pos hab])

/-- The strict string comparison is asymmetric. -/
theorem pyCharsLt_asymm (as bs : List Char) (h : pyCharsLt as bs = true) :
    pyCharsLt bs as = false := by
  cases h2 : pyCharsLt bs as with
  | false => rfl
  | true =>
      have := pyCharsLt_trans as bs as h h2
      rw [pyCharsLt_irrefl] at this
      cases this

/-- The pattern comparison is total. -/
theorem patternLe_total (a b : RouteEntry) : patternLe a b ∨ patternLe b a := by
  unfold patternLe pyStrLe pyStrLt
  cases h : pyCharsLt b.pattern.data a.pattern.data with
  | false => exact Or.inl (by simp [h])
  | true => exact Or.inr (by simp [pyCharsLt_asymm _ _ h])

/-- The pattern comparison is transitive. -/
theorem patternLe_trans (a b c : RouteEntry) (hab : patternLe a b)
    (hbc : patternLe b c) : patternLe a c := by
  unfold patternLe pyStrLe pyStrLt at hab hbc ⊢
  simp only [Bool.not_eq_true'] at hab hbc ⊢
  cases hca : pyCharsLt c.pattern.data a.pattern.data with
  | false => rfl
  | true =>
      rcases pyCharsLt_connected _ _ hbc with h2 | h2
      · have := pyCharsLt_trans _ _ _ h2 hca
        rw [this] at hab
        cases hab
      · rw [h2] at hca
        rw [hca] at hab
        cases hab

/-- Every string starts with the empty string. -/
theorem pyStartswith_empty (s : String) : pyStartswith s "" = true := by
  simp [pyStartswith, List.isPrefixOf_iff_prefix]

/-- Prepending a slash yields a string starting with a slash. -/
theorem pyStartswith_slash_append (s : String) :
    pyStartswith ("/" ++ s) "/" = true := by
  simp [pyStartswith, String.data_append, List.isPrefixOf_iff_prefix]

/-- A group flag is not matched by the prefix-flag test. -/
theorem groupFlag_not_prefixFlag (s : String) :
    pyStartswith ("--group=" ++ s) "--prefix=" = false := by
  simp [pyStartswith, String.data_append, List.isPrefixOf]

/-- A group flag is matched by the group-flag test. -/
theorem groupFlag_is_groupFlag (s : String) :
    pyStartswith ("--group=" ++ s) "--group=" = true := by
  simp [pyStartswith, String.data_append, List.isPrefixOf]

/-- A prefix flag is matched by the prefix-flag test. -/
theorem prefixFlag_is_prefixFlag (s : String) :
    pyStartswith ("--prefix=" ++ s) "--prefix=" = true := by
  simp [pyStartswith, String.data_append, List.isPrefixOf]

/-- Slicing the flag tag off a group flag yields its value. -/
theorem slice_groupFlag (s : String) : pySliceFrom ("--group=" ++ s) 8 = s := by
  have h : ("--group=".data).length = 8 := rfl
  simp [pySliceFrom, String.data_append, List.drop_left' h]

/-- Slicing the flag tag off a prefix flag yields its value. -/
theorem slice_prefixFlag (s : String) :
    pySliceFrom ("--prefix=" ++ s) 9 = s := by
  have h : ("--prefix=".data).length = 9 := rfl
  simp [pySliceFrom, String.data_append, List.drop_left' h]

/-- The only exception the collect loop body can raise is the
AttributeError from reading the module name. -/
theorem processRoute_error_msg (fv : Route → View) (rt : Route) (e : String)
    (h : processRoute fv rt = Except.error e) : e = attributeErrorMsg := by
  simp only [processRoute] at h
  cases hm : (fv rt).moduleOf with
  | none => rw [hm] at h; injection h with h; exact h.symm
  | some m => rw [hm] at h; cases h

/-- A route whose view lookup fails makes the collect loop body raise
the AttributeError. -/
theorem processRoute_missing_view (fv : Route → View) (rt : Route)
    (h : fv rt = View.missing) :
    processRoute fv rt = Except.error attributeErrorMsg := by
  unfold processRoute
  rw [h]
  rfl

/-- Field characterization of a successfully built route entry. -/
theorem processRoute_ok_fields (fv : Route → View) (rt : Route)
    (e : RouteEntry) (h : processRoute fv rt = Except.ok e) :
    e.name = rt.name ∧
    e.pattern = (if pyStartswith rt.pattern "/" then rt.pattern
                 else "/" ++ rt.pattern) ∧
    e.predicates = get_view_predicates (fv rt) ∧
    (fv rt).moduleOf = some e.module ∧
    e.doc = get_docstring (fv rt) ∧
    e.renderer = Option.map Renderer.name (get_view_renderer (fv rt)) := by
  simp only [processRoute] at h
  cases hm : (fv rt).moduleOf with
  | none => rw [hm] at h; cases h
  | some m =>
      rw [hm] at h
      injection h with h
      subst h
      refine ⟨rfl, rfl, rfl, rfl, rfl, ?_⟩
      cases get_view_renderer (fv rt) <;> rfl

/-- Every entry of a successful collect loop run comes from one of
the mapper's routes. -/
theorem collectRoutes_ok_mem (fv : Route → View) :
    ∀ (l : List (String × Route)) (out : List RouteEntry),
      collectRoutes fv l = Except.ok out → ∀ e ∈ out,
        ∃ nm rt, (nm, rt) ∈ l ∧ processRoute fv rt = Except.ok e := by
  intro l
  induction l with
  | nil =>
      intro out h e he
      unfold collectRoutes at h
      injection h with h
      subst h
      cases he
  | cons hd tl ih =>
      intro out h e he
      obtain ⟨nm, rt⟩ := hd
      unfold collectRoutes at h
      cases h1 : processRoute fv rt with
      | error msg => rw [h1] at h; cases h
      | ok entry =>
          rw [h1] at h
          cases h2 : collectRoutes fv tl with
          | error msg => rw [h2] at h; cases h
          | ok entries =>
              rw [h2] at h
              injection h with h
              subst h
              cases he with
              | head =>
                  exact ⟨nm, rt, List.mem_cons_self _ _, h1⟩
              | tail _ he2 =>
                  obtain ⟨nm2, rt2, hmem, hpr⟩ := ih entries h2 e he2
                  exact ⟨nm2, rt2, List.mem_cons_of_mem _ hmem, hpr⟩

/-- When some route's loop body raises the AttributeError, the whole
loop raises it (whichever failing route comes first, the message is
the same). -/
theorem collectRoutes_error_attr (fv : Route → View) :
    ∀ l : List (String × Route),
      (∃ nm rt, (nm, rt) ∈ l ∧
        processRoute fv rt = Except.error attributeErrorMsg) →
      collectRoutes fv l = Except.error attributeErrorMsg := by
  intro l
  induction l with
  | nil =>
      rintro ⟨nm, rt, hmem, _⟩
      cases hmem
  | cons hd tl ih =>
      rintro ⟨nm, rt, hmem, herr⟩
      obtain ⟨nm1, rt1⟩ := hd
      unfold collectRoutes
      cases h1 : processRoute fv rt1 with
      | error msg =>
          rw [processRoute_error_msg fv rt1 msg h1]
      | ok entry =>
          rcases List.mem_cons.mp hmem with heq | hmem2
          · injection heq with heq1 heq2
            rw [heq2] at herr
            rw [herr] at h1
            exact Except.noConfusion h1
          · rw [ih ⟨nm, rt, hmem2, herr⟩]

/-- When get_docstring yields a triple, its docstring component is
exactly inspect.getdoc of the fully unwrapped function, and its
filename component that function's source file. -/
theorem get_docstring_some_spec (v : View) (f : String) (l : Nat)
    (d : String) (h : get_docstring v = some (f, l, d)) :
    (_get_unwrapped v).getdocOf = some d ∧
    (_get_unwrapped v).sourceFileOf = some f := by
  simp only [get_docstring] at h
  cases h1 : (_get_unwrapped v).sourceFileOf with
  | none => rw [h1] at h; cases h
  | some filename =>
      rw [h1] at h
      cases h2 : findDocstringLine (_get_unwrapped v).sourceLinesOf
          (max (_get_unwrapped v).startOffsetOf 1) with
      | none => rw [h2] at h; cases h
      | some lineno =>
          rw [h2] at h
          cases h3 : (_get_unwrapped v).getdocOf with
          | none => rw [h3] at h; cases h
          | some doc =>
              rw [h3] at h
              injection h with h
              injection h with hf h
              injection h with hl hd
              exact ⟨by rw [hd], by rw [hf]⟩

/-- get_docstring yields nothing when the unwrapped function has no
determinable source file, when no source line starts a string
literal, or when inspect.getdoc returns None. -/
theorem get_docstring_none_of (v : View)
    (h : (_get_unwrapped v).sourceFileOf = none ∨
         findDocstringLine (_get_unwrapped v).sourceLinesOf
           (max (_get_unwrapped v).startOffsetOf 1) = none ∨
         (_get_unwrapped v).getdocOf = none) :
    get_docstring v = none := by
  simp only [get_docstring]
  rcases h with h | h | h
  · rw [h]
  · rw [h]
    cases (_get_unwrapped v).sourceFileOf <;> rfl
  · rw [h]
    cases h1 : (_get_unwrapped v).sourceFileOf with
    | none => rfl
    | some filename =>
        cases findDocstringLine (_get_unwrapped v).sourceLinesOf
          (max (_get_unwrapped v).startOffsetOf 1) <;> rfl

/-- The predicates loop appends to its accumulator the (class name,
value) pairs of the predicates that have a `val` attribute, keeping
their order. -/
theorem predicatesLoop_eq (l : List Predicate) :
    ∀ acc, predicatesLoop l acc =
      acc ++ l.filterMap (fun p => p.val.map (fun v => (p.className, v))) := by
  induction l with
  | nil => intro acc; simp [predicatesLoop]
  | cons p rest ih =>
      intro acc
      cases hv : p.val with
      | none => simp [predicatesLoop, hv, ih]
      | some v => simp [predicatesLoop, hv, ih]

/-- Docstring content distributes over list concatenation. -/
theorem hasDocstringAny_append (l1 l2 : List Node) :
    hasDocstringAny (l1 ++ l2) =
      (hasDocstringAny l1 || hasDocstringAny l2) := by
  induction l1 with
  | nil => simp [hasDocstringAny]
  | cons n rest ih => simp [hasDocstringAny, ih, Bool.or_assoc]

/-- The request-method items are literal and separator nodes only. -/
theorem hasDocstringAny_methodItems (ms : List JsonVal) :
    ∀ b, hasDocstringAny (renderMethodItems b ms) = false := by
  induction ms with
  | nil => intro b; rfl
  | cons m rest ih =>
      intro b
      cases b <;>
        simp [renderMethodItems, hasDocstringAny, hasDocstringNode, ih]

/-- The request-methods paragraph carries no docstring content. -/
theorem hasDocstringAny_requestMethods (r : RouteEntry) :
    hasDocstringAny (_render_request_methods r) = false := by
  simp only [_render_request_methods]
  cases jsonTruthy (_get_request_methods r.predicates) with
  | false => rfl
  | true =>
      simp [hasDocstringAny, hasDocstringNode, hasDocstringAny_append,
        hasDocstringAny_methodItems]

/-- The response paragraph carries no docstring content. -/
theorem hasDocstringAny_response (r : RouteEntry) :
    hasDocstringAny (_render_response r) = false := by
  simp only [_render_response]
  cases hr : r.renderer with
  | none => rfl
  | some s =>
      cases hs : s.isEmpty <;>
        simp [hs, hasDocstringAny, hasDocstringNode]

/-- A route entry without a docstring renders to a section without
any docstring content. -/
theorem render_route_no_docstring (opts : DirectiveOptions) (serial : Nat)
    (r : RouteEntry) (h : r.doc = none) :
    hasDocstringNode (_render_route opts serial r) = false := by
  simp only [_render_route, h, hasDocstringNode]
  simp [hasDocstringAny_append, hasDocstringAny, hasDocstringNode,
    hasDocstringAny_requestMethods, hasDocstringAny_response]

/-- An invalid `--group` flag value makes the helper's argument
parser error out, whatever state the parse loop is in when it
reaches the flag. -/
theorem parseArgsLoop_invalid_group (g : String) (hg : g ≠ "module")
    (rest : List String) (c p gacc : Option String) :
    parseArgsLoop (("--group=" ++ g) :: rest) c p gacc =
      Except.error "error: argument --group: invalid choice" := by
  have hcontains : GROUP_FUNCS_contains (pySliceFrom ("--group=" ++ g) 8)
      = false := by
    rw [slice_groupFlag]
    simp [GROUP_FUNCS_contains]
    exact hg
  simp [parseArgsLoop, groupFlag_not_prefixFlag, groupFlag_is_groupFlag,
    hcontains]

/-- Whatever the first argument is, an invalid `--group` flag in
second position makes the helper's argument parser error out. -/
theorem parseMainArgs_invalid_group (g : String) (hg : g ≠ "module")
    (c1 : String) (rest : List String) :
    parseMainArgs (c1 :: ("--group=" ++ g) :: rest) =
      Except.error "error: argument --group: invalid choice" := by
  unfold parseMainArgs
  cases h1 : pyStartswith c1 "--prefix=" with
  | true =>
      simp [parseArgsLoop, h1]
      exact parseArgsLoop_invalid_group g hg rest none _ none
  | false =>
      cases h2 : pyStartswith c1 "--group=" with
      | true =>
          cases h3 : GROUP_FUNCS_contains (pySliceFrom c1 8) with
          | true =>
              simp [parseArgsLoop, h1, h2, h3]
              exact parseArgsLoop_invalid_group g hg rest none none _
          | false => simp [parseArgsLoop, h1, h2, h3]
      | false =>
          simp [parseArgsLoop, h1, h2]
          exact parseArgsLoop_invalid_group g hg rest _ none none

/-- The helper's argument parser recovers exactly the options that
get_routes encoded as flags, provided the configuration path does
not itself look like one of the two flags and the group name is the
one argparse accepts. -/
theorem parseMainArgs_roundtrip (c : String)
    (hc1 : pyStartswith c "--prefix=" = false)
    (hc2 : pyStartswith c "--group=" = false)
    (prefArg group_by : Option String)
    (hg : pyTruthy group_by = true → group_by.getD "" = "module") :
    parseMainArgs
      ([c] ++ (if pyTruthy group_by then
                 ["--group=" ++ group_by.getD ""] else [])
           ++ (if pyTruthy prefArg then
                 ["--prefix=" ++ prefArg.getD ""] else [])) =
      Except.ok
        ⟨c,
         (if pyTruthy prefArg then some (prefArg.getD "") else none),
         (if pyTruthy group_by then some (group_by.getD "") else none)⟩ := by
  cases hgt : pyTruthy group_by with
  | false =>
      cases hpt : pyTruthy prefArg with
      | false => simp [parseMainArgs, parseArgsLoop, hc1, hc2]
      | true =>
          simp only [parseMainArgs, if_true, if_false, List.cons_append,
            List.nil_append, List.singleton_append]
          simp [parseArgsLoop, hc1, hc2, prefixFlag_is_prefixFlag,
            groupFlag_not_prefixFlag, slice_prefixFlag]
  | true =>
      have hgm : group_by.getD "" = "module" := hg hgt
      have e1 : pyStartswith "--group=module" "--prefix=" = false := rfl
      have e2 : pyStartswith "--group=module" "--group=" = true := rfl
      have e3 : pySliceFrom "--group=module" 8 = "module" := rfl
      cases hpt : pyTruthy prefArg with
      | false =>
          simp only [parseMainArgs, if_true, if_false, List.cons_append,
            List.nil_append, List.singleton_append, List.append_nil]
          rw [hgm]
          simp [parseArgsLoop, hc1, hc2, e1, e2, e3, GROUP_FUNCS_contains]
      | true =>
          simp only [parseMainArgs, if_true, if_false, List.cons_append,
            List.nil_append, List.singleton_append]
          rw [hgm]
          simp [parseArgsLoop, hc1, hc2, e1, e2, e3, GROUP_FUNCS_contains,
            prefixFlag_is_prefixFlag, slice_prefixFlag]

/-- get_routes maps every subprocess failure to the JSON decoding
error (the exception never crosses the process boundary; only the
empty standard output does). -/
theorem get_routes_fetched_error_msg (python script : String)
    (expanduser : String → String) (env : Env) (modules : String → View)
    (config : String) (prefArg group_by : Option String) (e : String)
    (h : get_routes_fetched python script expanduser env modules config
           prefArg group_by = Except.error e) :
    e = jsonLoadsErrorMsg := by
  simp only [get_routes_fetched] at h
  cases h1 : parseMainArgs
      ((get_routes_args python script expanduser config prefArg
        group_by).drop 2) with
  | error msg => simp only [h1] at h; injection h with h; exact h.symm
  | ok opts =>
      simp only [h1] at h
      cases h2 : mainPipeline env modules opts with
      | error msg => simp only [h2] at h; injection h with h; exact h.symm
      | ok f => simp only [h2] at h; cases h

/-- The directive's Invalid-group message differs from the JSON
decoding error. -/
theorem invalidGroupMsg_ne_jsonLoadsErrorMsg (s : String) :
    invalidGroupMsg s ≠ jsonLoadsErrorMsg := by
  intro h
  have hd := congrArg String.data h
  simp [invalidGroupMsg, pyReprStr, jsonLoadsErrorMsg,
    String.data_append] at hd

/-- The directive's Invalid-group message differs from the shape
error. -/
theorem invalidGroupMsg_ne_shapeErrorMsg (s : String) :
    invalidGroupMsg s ≠ rendererShapeErrorMsg := by
  intro h
  have hd := congrArg String.data h
  simp [invalidGroupMsg, pyReprStr, rendererShapeErrorMsg,
    String.data_append] at hd

/-- Unfolding of a successful collect run. -/
theorem collect_ok_elim (env : Env) (entries : List RouteEntry)
    (h : collect env = Except.ok entries) :
    ∃ routes, collectRoutes env.findView env.routes = Except.ok routes ∧
      entries = routes.insertionSort patternLe := by
  unfold collect at h
  cases h1 : collectRoutes env.findView env.routes with
  | error msg => rw [h1] at h; cases h
  | ok routes =>
      rw [h1] at h
      injection h with h
      exact ⟨routes, rfl, h.symm⟩

/-- Every entry of a successful collect run comes from one of the
mapper's routes. -/
theorem collect_ok_mem (env : Env) (entries : List RouteEntry)
    (h : collect env = Except.ok entries) (e : RouteEntry)
    (he : e ∈ entries) :
    ∃ nm rt, (nm, rt) ∈ env.routes ∧
      processRoute env.findView rt = Except.ok e := by
  obtain ⟨routes, h1, h2⟩ := collect_ok_elim env entries h
  subst h2
  exact collectRoutes_ok_mem env.findView env.routes routes h1 e
    ((List.mem_insertionSort patternLe).mp he)


/-
  Claim theorems.
-/

/-- C1: whenever collect stores a doc triple for a route entry, the
entry is the one collect built for a mapper route whose view is the
entry's view — the entry's doc field is get_docstring of exactly that
route's view — and the triple's docstring component is
inspect.getdoc of that view's fully unwrapped function (unwrapped
along __wraps__ / __wrapped__): the printed docstring matches the
corresponding function's docstring. -/
theorem claim_C1_doc_matches_getdoc (env : Env) (entries : List RouteEntry)
    (h : collect env = Except.ok entries) (e : RouteEntry) (he : e ∈ entries)
    (f : String) (l : Nat) (d : String) (hd : e.doc = some (f, l, d)) :
    ∃ nm rt, (nm, rt) ∈ env.routes ∧
      processRoute env.findView rt = Except.ok e ∧
      e.name = rt.name ∧
      e.doc = get_docstring (env.findView rt) ∧
      (_get_unwrapped (env.findView rt)).getdocOf = some d := by
  obtain ⟨nm, rt, hmem, hpr⟩ := collect_ok_mem env entries h e he
  obtain ⟨hname, -, -, -, hdoc, -⟩ := processRoute_ok_fields _ _ _ hpr
  rw [hd] at hdoc
  exact ⟨nm, rt, hmem, hpr, hname, hd ▸ hdoc,
    (get_docstring_some_spec _ f l d hdoc.symm).1⟩

/-- C1 witness: in the example environment, the entry carrying the
view_page docstring is the one built for the view_page route, and the
stored docstring is the docstring of that route's unwrapped view
function. -/
theorem claim_C1_witness :
    ∃ nm rt, (nm, rt) ∈ exampleEnv.routes ∧
      processRoute exampleEnv.findView rt = Except.ok examplePageEntry ∧
      examplePageEntry.name = rt.name ∧
      examplePageEntry.doc = get_docstring (exampleEnv.findView rt) ∧
      (_get_unwrapped (exampleEnv.findView rt)).getdocOf =
        some "View a single wiki page." :=
  claim_C1_doc_matches_getdoc exampleEnv exampleEntries rfl examplePageEntry
    (List.mem_cons_of_mem _ (List.mem_cons_self _ _))
    "docs/example_app/example/views.py" 10 "View a single wiki page." rfl

/-- C5: a view without a findable docstring (no determinable source
file, no source line starting a string literal, or inspect.getdoc
returning None) yields get_docstring = None, a null doc field in the
collected entry, and a rendered route section without any docstring
content — no error is raised. -/
theorem claim_C5_missing_docstring_degrades (fv : Route → View) (rt : Route)
    (v : View) (hv : fv rt = v) (opts : DirectiveOptions) (serial : Nat)
    (h : (_get_unwrapped v).sourceFileOf = none ∨
         findDocstringLine (_get_unwrapped v).sourceLinesOf
           (max (_get_unwrapped v).startOffsetOf 1) = none ∨
         (_get_unwrapped v).getdocOf = none) :
    get_docstring v = none ∧
    ∀ e, processRoute fv rt = Except.ok e →
      e.doc = none ∧ hasDocstringNode (_render_route opts serial e) = false := by
  have hgd : get_docstring v = none := get_docstring_none_of v h
  refine ⟨hgd, ?_⟩
  intro e hpr
  obtain ⟨-, -, -, -, hdoc, -⟩ := processRoute_ok_fields _ _ _ hpr
  rw [hv, hgd] at hdoc
  exact ⟨hdoc, render_route_no_docstring opts serial e hdoc⟩

/-- C5 witness: the undocumented ping view has no docstring triple,
its collected entry has a null doc field, and its rendered section
contains no docstring content. -/
theorem claim_C5_witness :
    get_docstring pingFunc = none ∧
    examplePingEntry.doc = none ∧
    hasDocstringNode (_render_route ⟨none, none⟩ 0 examplePingEntry) = false :=
  ⟨(claim_C5_missing_docstring_degrades exampleEnv.findView ⟨"ping", "/ping"⟩
      pingFunc rfl ⟨none, none⟩ 0 (Or.inr (Or.inl rfl))).1,
   (claim_C5_missing_docstring_degrades exampleEnv.findView ⟨"ping", "/ping"⟩
      pingFunc rfl ⟨none, none⟩ 0 (Or.inr (Or.inl rfl))).2
     examplePingEntry rfl⟩

/-- C6: every route entry collect produces serializes to a JSON
object with exactly the keys name, pattern, predicates, module, doc
and renderer, in that order; the doc field is None or a triple, and
the renderer field is None or the name of the view's renderer. -/
theorem claim_C6_entry_wellformed (env : Env) (entries : List RouteEntry)
    (h : collect env = Except.ok entries) (e : RouteEntry)
    (he : e ∈ entries) :
    jsonObjKeys (routeJson e) =
      some ["name", "pattern", "predicates", "module", "doc", "renderer"] ∧
    (e.doc = none ∨ ∃ f l d, e.doc = some (f, l, d)) ∧
    (e.renderer = none ∨ ∃ r : Renderer, e.renderer = some r.name) := by
  refine ⟨rfl, ?_, ?_⟩
  · cases hd : e.doc with
    | none => exact Or.inl rfl
    | some t => exact Or.inr ⟨t.1, t.2.1, t.2.2, rfl⟩
  · obtain ⟨nm, rt, hmem, hpr⟩ := collect_ok_mem env entries h e he
    obtain ⟨-, -, -, -, -, hren⟩ := processRoute_ok_fields _ _ _ hpr
    cases hr : get_view_renderer (env.findView rt) with
    | none => rw [hr] at hren; exact Or.inl (by simpa using hren)
    | some r => rw [hr] at hren; exact Or.inr ⟨r, by simpa using hren⟩

/-- C6 witness: the entry collected for the view_page route is
well-formed in the claimed sense. -/
theorem claim_C6_witness :
    jsonObjKeys (routeJson examplePageEntry) =
      some ["name", "pattern", "predicates", "module", "doc", "renderer"] ∧
    (examplePageEntry.doc = none ∨
      ∃ f l d, examplePageEntry.doc = some (f, l, d)) ∧
    (examplePageEntry.renderer = none ∨
      ∃ r : Renderer, examplePageEntry.renderer = some r.name) :=
  claim_C6_entry_wellformed exampleEnv exampleEntries rfl examplePageEntry
    (List.mem_cons_of_mem _ (List.mem_cons_self _ _))

/-- C7: the extracted predicates are exactly one (class name, value)
pair per element of the view's __predicates__ that has a val
attribute, in order; predicates without a val attribute are omitted,
and a view without a __predicates__ attribute yields the empty
list. -/
theorem claim_C7_predicates_extraction (v : View) :
    get_view_predicates v =
      v.predicatesOf.filterMap
        (fun p => p.val.map (fun x => (p.className, x))) ∧
    (v.hasPredicatesAttr = false → get_view_predicates v = []) := by
  constructor
  · simp [get_view_predicates, predicatesLoop_eq]
  · intro h
    cases v with
    | missing => rfl
    | func a w w2 =>
        cases hp : a.predicates with
        | none =>
            simp [get_view_predicates, View.predicatesOf, hp, predicatesLoop]
        | some l =>
            rw [View.hasPredicatesAttr, hp] at h
            cases h

/-- C7 witness: the wrapped view_page callable carries one
request-method predicate pair, and a view without a __predicates__
attribute yields the empty list. -/
theorem claim_C7_witness :
    get_view_predicates viewPageWrapped =
      [("RequestMethodPredicate",
        JsonVal.arr [JsonVal.str "GET", JsonVal.str "POST"])] ∧
    get_view_predicates View.missing = [] :=
  ⟨(claim_C7_predicates_extraction viewPageWrapped).1.trans rfl,
   (claim_C7_predicates_extraction View.missing).2 rfl⟩

/-- C8: the list collect returns is sorted in ascending order of the
entries' pattern fields (under Python's string comparison). -/
theorem claim_C8_collect_sorted (env : Env) (entries : List RouteEntry)
    (h : collect env = Except.ok entries) :
    entries.Pairwise (fun a b => pyStrLe a.pattern b.pattern = true) := by
  obtain ⟨routes, h1, h2⟩ := collect_ok_elim env entries h
  subst h2
  exact @List.sorted_insertionSort _ patternLe _ ⟨patternLe_total⟩
    ⟨patternLe_trans⟩ routes

/-- C8 witness: the example environment's collected entries are
pattern-sorted. -/
theorem claim_C8_witness :
    exampleEntries.Pairwise (fun a b => pyStrLe a.pattern b.pattern = true) :=
  claim_C8_collect_sorted exampleEnv exampleEntries rfl

/-- C9: every collected entry's pattern starts with a slash: a route
pattern that does not start with a slash gets one prepended, one
that already starts with a slash is kept unchanged. -/
theorem claim_C9_pattern_leading_slash (env : Env)
    (entries : List RouteEntry) (h : collect env = Except.ok entries)
    (e : RouteEntry) (he : e ∈ entries) :
    pyStartswith e.pattern "/" = true ∧
    ∃ nm rt, (nm, rt) ∈ env.routes ∧
      ((pyStartswith rt.pattern "/" = true ∧ e.pattern = rt.pattern) ∨
       (pyStartswith rt.pattern "/" = false ∧
        e.pattern = "/" ++ rt.pattern)) := by
  obtain ⟨nm, rt, hmem, hpr⟩ := collect_ok_mem env entries h e he
  obtain ⟨-, hpat, -, -, -, -⟩ := processRoute_ok_fields _ _ _ hpr
  cases hs : pyStartswith rt.pattern "/" with
  | true =>
      rw [hs, if_pos rfl] at hpat
      exact ⟨by rw [hpat]; exact hs, nm, rt, hmem, Or.inl ⟨hs, hpat⟩⟩
  | false =>
      rw [hs] at hpat
      simp only [Bool.false_eq_true, if_false] at hpat
      refine ⟨?_, nm, rt, hmem, Or.inr ⟨hs, hpat⟩⟩
      rw [hpat]
      exact pyStartswith_slash_append rt.pattern

/-- C9 witness: the view_page route's pattern lacks the leading
slash and the collected entry has it prepended. -/
theorem claim_C9_witness :
    pyStartswith examplePageEntry.pattern "/" = true ∧
    ∃ nm rt, (nm, rt) ∈ exampleEnv.routes ∧
      ((pyStartswith rt.pattern "/" = true ∧
        examplePageEntry.pattern = rt.pattern) ∨
       (pyStartswith rt.pattern "/" = false ∧
        examplePageEntry.pattern = "/" ++ rt.pattern)) :=
  claim_C9_pattern_leading_slash exampleEnv exampleEntries rfl
    examplePageEntry (List.mem_cons_of_mem _ (List.mem_cons_self _ _))

/-- Decomposition of the built argument list. -/
theorem get_routes_args_decomp (python script : String)
    (expanduser : String → String) (config : String)
    (prefArg group_by : Option String) :
    get_routes_args python script expanduser config prefArg group_by =
      [python, script, expanduser config]
        ++ (if pyTruthy group_by then ["--group=" ++ group_by.getD ""]
            else [])
        ++ (if pyTruthy prefArg then ["--prefix=" ++ prefArg.getD ""]
            else []) := by
  cases hgt : pyTruthy group_by <;> cases hpt : pyTruthy prefArg <;>
    simp [get_routes_args, hgt, hpt]

/-- A non-empty optional string is truthy. -/
theorem pyTruthy_of_ne_empty (g : String) (h : g ≠ "") :
    pyTruthy (some g) = true := by
  simp only [pyTruthy, Bool.not_eq_true']
  cases hg : g.isEmpty with
  | false => rfl
  | true => exact absurd ((String.isEmpty_iff g).mp hg) h

/-- C10: running main with a prefix option and no group option yields
exactly the collected routes whose pattern starts with the prefix, as
a sublist (hence in unchanged relative order) of the full
pattern-sorted route list, serialized as the single JSON array of
exactly those routes. -/
theorem claim_C10_prefix_filters (env : Env) (modules : String → View)
    (c P : String) (entries : List RouteEntry)
    (h : collect env = Except.ok entries) :
    ∃ out,
      mainPipeline env modules ⟨c, some P, none⟩ =
        Except.ok (Fetched.ungrouped out) ∧
      (mainPipeline env modules ⟨c, some P, none⟩).map fetchedToJson =
        Except.ok (JsonVal.arr (out.map routeJson)) ∧
      List.Sublist out entries ∧
      (∀ e, e ∈ out ↔ (e ∈ entries ∧ pyStartswith e.pattern P = true)) := by
  cases hP : P.isEmpty with
  | true =>
      refine ⟨entries, ?_, ?_, List.Sublist.refl entries, ?_⟩
      · simp [mainPipeline, h, pyTruthy, hP]
      · simp [mainPipeline, h, pyTruthy, hP, fetchedToJson, Except.map]
      · intro e
        have hP0 : P = "" := (String.isEmpty_iff P).mp hP
        constructor
        · intro he
          exact ⟨he, by rw [hP0]; exact pyStartswith_empty e.pattern⟩
        · exact fun he => he.1
  | false =>
      refine ⟨entries.filter (fun r => pyStartswith r.pattern P), ?_, ?_,
        List.filter_sublist entries, ?_⟩
      · simp [mainPipeline, h, pyTruthy, hP]
      · simp [mainPipeline, h, pyTruthy, hP, fetchedToJson, Except.map]
      · intro e
        exact List.mem_filter

/-- C10 witness: filtering the example environment by the prefix /p
keeps exactly the page and ping routes, in order. -/
theorem claim_C10_witness :
    ∃ out,
      mainPipeline exampleEnv exampleModules ⟨"app.ini", some "/p", none⟩ =
        Except.ok (Fetched.ungrouped out) ∧
      (mainPipeline exampleEnv exampleModules
          ⟨"app.ini", some "/p", none⟩).map fetchedToJson =
        Except.ok (JsonVal.arr (out.map routeJson)) ∧
      List.Sublist out exampleEntries ∧
      (∀ e, e ∈ out ↔ (e ∈ exampleEntries ∧
        pyStartswith e.pattern "/p" = true)) :=
  claim_C10_prefix_filters exampleEnv exampleModules "app.ini" "/p"
    exampleEntries rfl

/-- C2: get_routes invokes the helper with interpreter, script and
the expanded configuration path, appends a group flag exactly when
group_by is truthy and a prefix flag exactly when the prefix is
truthy, the helper's parser recovers exactly those options, and the
returned value is the single JSON document main dumps. -/
theorem claim_C2_subprocess_invocation (python script : String)
    (expanduser : String → String) (config : String)
    (prefArg group_by : Option String)
    (hc1 : pyStartswith (expanduser config) "--prefix=" = false)
    (hc2 : pyStartswith (expanduser config) "--group=" = false)
    (hg : pyTruthy group_by = true → group_by.getD "" = "module") :
    (get_routes_args python script expanduser config prefArg group_by).take 3
        = [python, script, expanduser config] ∧
    (get_routes_args python script expanduser config prefArg group_by).drop 3
        = (if pyTruthy group_by then ["--group=" ++ group_by.getD ""]
           else [])
          ++ (if pyTruthy prefArg then ["--prefix=" ++ prefArg.getD ""]
              else []) ∧
    parseMainArgs
        ((get_routes_args python script expanduser config prefArg
          group_by).drop 2)
      = Except.ok
          ⟨expanduser config,
           (if pyTruthy prefArg then some (prefArg.getD "") else none),
           (if pyTruthy group_by then some (group_by.getD "") else none)⟩ ∧
    ∀ (env : Env) (modules : String → View) (f : Fetched),
      mainPipeline env modules
          ⟨expanduser config,
           (if pyTruthy prefArg then some (prefArg.getD "") else none),
           (if pyTruthy group_by then some (group_by.getD "") else none)⟩
        = Except.ok f →
      extractScriptDocs env modules
          ((get_routes_args python script expanduser config prefArg
            group_by).drop 2) = Except.ok [fetchedToJson f] ∧
      get_routes_fetched python script expanduser env modules config
          prefArg group_by = Except.ok f := by
  have hargs := get_routes_args_decomp python script expanduser config
    prefArg group_by
  have hparse := parseMainArgs_roundtrip (expanduser config) hc1 hc2
    prefArg group_by hg
  have hdrop2 : (get_routes_args python script expanduser config prefArg
      group_by).drop 2 =
      [expanduser config]
        ++ (if pyTruthy group_by then ["--group=" ++ group_by.getD ""]
            else [])
        ++ (if pyTruthy prefArg then ["--prefix=" ++ prefArg.getD ""]
            else []) := by
    rw [hargs]
    cases pyTruthy group_by <;> cases pyTruthy prefArg <;> simp
  refine ⟨?_, ?_, ?_, ?_⟩
  · rw [hargs]
    cases pyTruthy group_by <;> cases pyTruthy prefArg <;> simp
  · rw [hargs]
    cases hgt : pyTruthy group_by <;> cases hpt : pyTruthy prefArg <;> simp
  · rw [hdrop2]
    exact hparse
  · intro env modules f hm
    constructor
    · rw [hdrop2]
      simp only [extractScriptDocs, hparse, hm]
    · simp only [get_routes_fetched, hdrop2, hparse, hm]

/-- C2 witness: a concrete invocation with both options set. -/
theorem claim_C2_witness :
    (get_routes_args "/usr/bin/python" "wegweiser/extract.py" (fun s => s)
      "app.ini" (some "/api") (some "module")).take 3
        = ["/usr/bin/python", "wegweiser/extract.py", "app.ini"] ∧
    (get_routes_args "/usr/bin/python" "wegweiser/extract.py" (fun s => s)
      "app.ini" (some "/api") (some "module")).drop 3
        = (if pyTruthy (some "module") then
             ["--group=" ++ (some "module").getD ""] else [])
          ++ (if pyTruthy (some "/api") then
                ["--prefix=" ++ (some "/api").getD ""] else []) ∧
    parseMainArgs
        ((get_routes_args "/usr/bin/python" "wegweiser/extract.py"
          (fun s => s) "app.ini" (some "/api") (some "module")).drop 2)
      = Except.ok
          ⟨"app.ini",
           (if pyTruthy (some "/api") then some ((some "/api").getD "")
            else none),
           (if pyTruthy (some "module") then some ((some "module").getD "")
            else none)⟩ ∧
    ∀ (env : Env) (modules : String → View) (f : Fetched),
      mainPipeline env modules
          ⟨"app.ini",
           (if pyTruthy (some "/api") then some ((some "/api").getD "")
            else none),
           (if pyTruthy (some "module") then some ((some "module").getD "")
            else none)⟩
        = Except.ok f →
      extractScriptDocs env modules
          ((get_routes_args "/usr/bin/python" "wegweiser/extract.py"
            (fun s => s) "app.ini" (some "/api") (some "module")).drop 2)
        = Except.ok [fetchedToJson f] ∧
      get_routes_fetched "/usr/bin/python" "wegweiser/extract.py"
          (fun s => s) env modules "app.ini" (some "/api") (some "module")
        = Except.ok f :=
  claim_C2_subprocess_invocation "/usr/bin/python" "wegweiser/extract.py"
    (fun s => s) "app.ini" (some "/api") (some "module") rfl rfl
    (fun _ => rfl)

/-- C3 counterexample: in an environment whose single route has no
registered view, collect does not produce a route entry or a
directive error; it aborts with an AttributeError raised while
reading the module name of the missing view. -/
theorem claim_C3_counterexample :
    collect missingViewEnv = Except.error attributeErrorMsg := rfl

/-- C3 amended: for a route whose view cannot be found, the renderer
and predicate extraction and the docstring lookup degrade to no
content (None, the empty list and None), but collect itself does not
produce a well-formed route entry: building the entry aborts with an
AttributeError when reading the missing view's module name, and the
whole collect run fails with that error. -/
theorem claim_C3_missing_view_aborts (env : Env) (nm : String) (rt : Route)
    (hmem : (nm, rt) ∈ env.routes)
    (hmiss : env.findView rt = View.missing) :
    get_view_renderer View.missing = none ∧
    get_view_predicates View.missing = [] ∧
    get_docstring View.missing = none ∧
    processRoute env.findView rt = Except.error attributeErrorMsg ∧
    collect env = Except.error attributeErrorMsg := by
  have hpr := processRoute_missing_view env.findView rt hmiss
  refine ⟨rfl, rfl, rfl, hpr, ?_⟩
  unfold collect
  rw [collectRoutes_error_attr env.findView env.routes ⟨nm, rt, hmem, hpr⟩]

/-- C3 witness: the concrete environment with a viewless route. -/
theorem claim_C3_witness :
    get_view_renderer View.missing = none ∧
    get_view_predicates View.missing = [] ∧
    get_docstring View.missing = none ∧
    processRoute missingViewEnv.findView ⟨"broken", "/broken"⟩ =
      Except.error attributeErrorMsg ∧
    collect missingViewEnv = Except.error attributeErrorMsg :=
  claim_C3_missing_view_aborts missingViewEnv "broken" ⟨"broken", "/broken"⟩
    (List.mem_cons_self _ _) rfl

/-- A truthy but invalid group name makes the helper subprocess fail
at argument parsing, which get_routes observes as empty standard
output and hence a JSON decoding error. -/
theorem get_routes_fetched_invalid_group (python script : String)
    (expanduser : String → String) (env : Env) (modules : String → View)
    (config : String) (prefArg : Option String) (g : String)
    (hg1 : g ≠ "") (hg2 : g ≠ "module") :
    get_routes_fetched python script expanduser env modules config prefArg
      (some g) = Except.error jsonLoadsErrorMsg := by
  have ht := pyTruthy_of_ne_empty g hg1
  have hdrop2 : (get_routes_args python script expanduser config prefArg
      (some g)).drop 2 =
      (expanduser config) :: ("--group=" ++ g) ::
        (if pyTruthy prefArg then ["--prefix=" ++ prefArg.getD ""]
         else []) := by
    rw [get_routes_args_decomp, ht]
    cases pyTruthy prefArg <;> simp
  have hparse := parseMainArgs_invalid_group g hg2 (expanduser config)
    (if pyTruthy prefArg then ["--prefix=" ++ prefArg.getD ""] else [])
  simp only [get_routes_fetched, hdrop2, hparse]

/-- With no group option the pipeline produces the plain route
list. -/
theorem mainPipeline_group_none_ok (env : Env) (modules : String → View)
    (opts : MainOptions) (entries : List RouteEntry)
    (h : collect env = Except.ok entries) (hgr : opts.group = none) :
    ∃ rs, mainPipeline env modules opts =
      Except.ok (Fetched.ungrouped rs) :=
  ⟨(if pyTruthy opts.pref then
      entries.filter (fun r => pyStartswith r.pattern (opts.pref.getD ""))
    else entries),
   by simp [mainPipeline, h, hgr, pyTruthy]⟩

/-- With the module group option the pipeline produces the
grouping. -/
theorem mainPipeline_group_module_ok (env : Env) (modules : String → View)
    (opts : MainOptions) (entries : List RouteEntry)
    (h : collect env = Except.ok entries)
    (hgr : opts.group = some "module") :
    ∃ ms, mainPipeline env modules opts =
      Except.ok (Fetched.grouped ms) :=
  ⟨group_by_modules modules
     (if pyTruthy opts.pref then
        entries.filter (fun r => pyStartswith r.pattern (opts.pref.getD ""))
      else entries),
   by simp [mainPipeline, h, hgr, show pyTruthy (some "module") = true
        from rfl]⟩

/-- C4 counterexample: invoking the pyramidroutes directive with the
unregistered groupby name foo does not raise the Invalid-group
directive error: the helper subprocess rejects the --group flag, its
standard output stays empty, and run fails with the JSON decoding
error — a different error than the claim states. -/
theorem claim_C4_counterexample :
    PyramidRoutesDirective_run ⟨none, some "foo"⟩ "python" "extract.py"
        (fun s => s) exampleEnv exampleModules "app.ini"
      = Except.error jsonLoadsErrorMsg ∧
    jsonLoadsErrorMsg ≠ invalidGroupMsg "foo" :=
  ⟨rfl, fun h => invalidGroupMsg_ne_jsonLoadsErrorMsg "foo" h.symm⟩

/-- C4 amended: for a groupby option that is not a registered group
renderer name, run fails — but with the JSON decoding error caused by
the helper subprocess rejecting the --group value, not with the
Invalid-group directive error, which is unreachable for every
invocation; for a registered name (the empty default or module) no
error is raised when the helper run succeeds. -/
theorem claim_C4_groupby_behavior (opts : DirectiveOptions)
    (python script : String) (expanduser : String → String) (env : Env)
    (modules : String → View) (config : String)
    (hc1 : pyStartswith (expanduser config) "--prefix=" = false)
    (hc2 : pyStartswith (expanduser config) "--group=" = false) :
    (group_renderer_lookup (opts.groupby.getD "") = none →
      PyramidRoutesDirective_run opts python script expanduser env modules
        config = Except.error jsonLoadsErrorMsg) ∧
    (∀ s, PyramidRoutesDirective_run opts python script expanduser env
        modules config ≠ Except.error (invalidGroupMsg s)) ∧
    (group_renderer_lookup (opts.groupby.getD "") ≠ none →
      ∀ entries, collect env = Except.ok entries →
        ∃ ns, PyramidRoutesDirective_run opts python script expanduser env
          modules config = Except.ok ns) := by
  have herr : group_renderer_lookup (opts.groupby.getD "") = none →
      PyramidRoutesDirective_run opts python script expanduser env modules
        config = Except.error jsonLoadsErrorMsg := by
    intro hnone
    by_cases hg0 : opts.groupby.getD "" = ""
    · simp [group_renderer_lookup, hg0] at hnone
    by_cases hgm : opts.groupby.getD "" = "module"
    · simp [group_renderer_lookup, hgm] at hnone
    have hfetch := get_routes_fetched_invalid_group python script expanduser
      env modules config opts.pref (opts.groupby.getD "") hg0 hgm
    simp only [PyramidRoutesDirective_run, hfetch]
  refine ⟨herr, ?_, ?_⟩
  · intro s hcontra
    cases hl : group_renderer_lookup (opts.groupby.getD "") with
    | none =>
        rw [herr hl] at hcontra
        injection hcontra with hmsg
        exact invalidGroupMsg_ne_jsonLoadsErrorMsg s hmsg.symm
    | some renderer =>
        cases hf : get_routes_fetched python script expanduser env modules
            config opts.pref (some (opts.groupby.getD "")) with
        | error e =>
            simp only [PyramidRoutesDirective_run, hf] at hcontra
            injection hcontra with hmsg
            rw [get_routes_fetched_error_msg python script expanduser env
              modules config opts.pref (some (opts.groupby.getD "")) e hf]
              at hmsg
            exact invalidGroupMsg_ne_jsonLoadsErrorMsg s hmsg.symm
        | ok fetched =>
            simp only [PyramidRoutesDirective_run, hf, hl] at hcontra
            cases renderer <;> cases fetched <;>
              simp only [applyGroupRenderer] at hcontra
            case defaultRenderer.ungrouped => cases hcontra
            case defaultRenderer.grouped =>
                injection hcontra with hmsg
                exact invalidGroupMsg_ne_shapeErrorMsg s hmsg.symm
            case moduleRenderer.ungrouped =>
                injection hcontra with hmsg
                exact invalidGroupMsg_ne_shapeErrorMsg s hmsg.symm
            case moduleRenderer.grouped => cases hcontra
  · intro hsome entries hcoll
    by_cases hg0 : opts.groupby.getD "" = ""
    · have hparse := parseMainArgs_roundtrip (expanduser config) hc1 hc2
        opts.pref (some "") (fun ht => Bool.noConfusion ht)
      have hparse2 : parseMainArgs
          ([expanduser config] ++ [] ++
            (if pyTruthy opts.pref then ["--prefix=" ++ opts.pref.getD ""]
             else [])) =
          Except.ok
            ⟨expanduser config,
             (if pyTruthy opts.pref then some (opts.pref.getD "")
              else none), none⟩ := by
        simpa [pyTruthy] using hparse
      have hdrop2 : (get_routes_args python script expanduser config
          opts.pref (some "")).drop 2 =
          [expanduser config] ++ [] ++
            (if pyTruthy opts.pref then ["--prefix=" ++ opts.pref.getD ""]
             else []) := by
        rw [get_routes_args_decomp]
        cases pyTruthy opts.pref <;>
          simp [pyTruthy, show ("" : String).isEmpty = true from rfl]
      obtain ⟨rs, hpipe⟩ := mainPipeline_group_none_ok env modules
        ⟨expanduser config,
         (if pyTruthy opts.pref then some (opts.pref.getD "") else none),
         none⟩ entries hcoll rfl
      have hfetch : get_routes_fetched python script expanduser env modules
          config opts.pref (some "") = Except.ok (Fetched.ungrouped rs) := by
        simp only [get_routes_fetched, hdrop2, hparse2, hpipe]
      refine ⟨_default_group_renderer opts rs, ?_⟩
      simp only [PyramidRoutesDirective_run, hg0, hfetch,
        group_renderer_lookup, applyGroupRenderer]
      simp
    by_cases hgm : opts.groupby.getD "" = "module"
    · have hparse := parseMainArgs_roundtrip (expanduser config) hc1 hc2
        opts.pref (some "module") (fun _ => rfl)
      have hparse2 : parseMainArgs
          ([expanduser config] ++ ["--group=module"] ++
            (if pyTruthy opts.pref then ["--prefix=" ++ opts.pref.getD ""]
             else [])) =
          Except.ok
            ⟨expanduser config,
             (if pyTruthy opts.pref then some (opts.pref.getD "")
              else none), some "module"⟩ := by
        simpa [show pyTruthy (some "module") = true from rfl] using hparse
      have hdrop2 : (get_routes_args python script expanduser config
          opts.pref (some "module")).drop 2 =
          [expanduser config] ++ ["--group=module"] ++
            (if pyTruthy opts.pref then ["--prefix=" ++ opts.pref.getD ""]
             else []) := by
        rw [get_routes_args_decomp]
        cases pyTruthy opts.pref <;>
          simp [show pyTruthy (some "module") = true from rfl]
      obtain ⟨ms, hpipe⟩ := mainPipeline_group_module_ok env modules
        ⟨expanduser config,
         (if pyTruthy opts.pref then some (opts.pref.getD "") else none),
         some "module"⟩ entries hcoll rfl
      have hfetch : get_routes_fetched python script expanduser env modules
          config opts.pref (some "module") =
          Except.ok (Fetched.grouped ms) := by
        simp only [get_routes_fetched, hdrop2, hparse2, hpipe]
      refine ⟨_module_group_renderer opts 0 ms, ?_⟩
      simp only [PyramidRoutesDirective_run, hgm, hfetch,
        group_renderer_lookup, applyGroupRenderer]
      simp
    · exact absurd (by simp [group_renderer_lookup, hg0, hgm]) hsome

/-- C4 witness: with the registered module groupby and a plain
configuration path, the directive run succeeds on the example
environment; with the default empty groupby it succeeds as well. -/
theorem claim_C4_witness :
    (∃ ns, PyramidRoutesDirective_run ⟨none, some "module"⟩ "python"
        "extract.py" (fun s => s) exampleEnv exampleModules "app.ini"
      = Except.ok ns) ∧
    PyramidRoutesDirective_run ⟨none, some "nosuch"⟩ "python" "extract.py"
        (fun s => s) exampleEnv exampleModules "app.ini"
      = Except.error jsonLoadsErrorMsg :=
  ⟨(claim_C4_groupby_behavior ⟨none, some "module"⟩ "python" "extract.py"
      (fun s => s) exampleEnv exampleModules "app.ini" rfl rfl).2.2
        (fun h => Option.noConfusion h) exampleEntries rfl,
   (claim_C4_groupby_behavior ⟨none, some "nosuch"⟩ "python" "extract.py"
      (fun s => s) exampleEnv exampleModules "app.ini" rfl rfl).1 rfl⟩
